import Mathlib

/-!
Verification of `temprl/wrapper.py` (temporal-goal composition and gating layer).

Shallow embedding of the single source file `src/temprl/wrapper.py`:

* `StepController` — the two-state gate (`started : Bool`) with `check` and `reset`
  (source lines 98–135).
* `TemporalGoal` — a goal tracker binding one automaton collaborator and a reward
  value (source lines 39–95).  The automaton/simulator engine (`temprl.automata`,
  `RewardDFA`, `RewardDFASimulator`) is an external collaborator that is not part
  of the source; it is modelled from the interface in spec §6 as `Automaton`,
  and the field `_current_state` of the simulator becomes the `currentState`
  field of the tracker, exactly as the data model in spec §3 describes.
* `TemporalGoalWrapper` — composite wrapper with `init` (`__init__`), `step`
  and `reset` (source lines 138–197).  The inner gym environment is an external
  collaborator modelled from the spec (§6) as `Env`.

Python mutable objects become explicit state passing: each method returns the
result together with the updated object.  Python `float` rewards are modelled
as `Rat`.  The `zip(*states_and_rewards)` unpacking in `step` raises a
`ValueError` in Python when the goal list is empty, so the embedded `step`
returns an `Option`, `none` in exactly that case.
-/

/-- Modelled from the spec: the automaton collaborator interface of §6
(the engine `temprl.automata` is not under `src/`): `stateCount`,
`initialState(interpretation)`, and `transition(state, interpretation)`
returning the successor state together with the reward attributed to the
transition. `I` is the opaque `Interpretation` type, `S` the automaton
state type. -/
structure Automaton (I S : Type) where
  stateCount : Nat
  initialState : I → S
  transition : S → I → S × Rat

/-- Modelled from the spec: the interactive inner-environment collaborator of
§6 (gym is external): `reset` yields an observation, `step` yields
`(observation, reward, done, info)`.  `E` is the opaque internal environment
state, threaded explicitly. -/
structure Env (E O A Info : Type) where
  reset : E → O × E
  step : E → A → (O × Rat × Bool × Info) × E

/-- Source lines 98–112, `StepController`: `started` starts out `false`;
`step_func` is the gate predicate, `allow_first` the first-step flag. -/
structure StepController (I : Type) where
  started : Bool
  step_func : I → Bool
  allow_first : Bool

namespace StepController

variable {I : Type}

/-- Source lines 114–131, `StepController.check`, returning the boolean
together with the updated controller:
`if self.allow_first and not self.started: self.started = True; return True`
`elif not self.started: self.started = self.step_func(fluents); return self.started`
`else: return self.step_func(fluents)`. -/
def check (c : StepController I) (fluents : I) : Bool × StepController I :=
  if c.allow_first && !c.started then
    (true, { c with started := true })
  else if !c.started then
    (c.step_func fluents, { c with started := c.step_func fluents })
  else
    (c.step_func fluents, c)

/-- Source lines 133–135, `StepController.reset`: `self.started = False`. -/
def reset (c : StepController I) : StepController I :=
  { c with started := false }

end StepController

/-- Source lines 39–58, `TemporalGoal`: binds the automaton and the reward
value; the field `_current_state` of the simulator is the `currentState` field. -/
structure TemporalGoal (I S : Type) where
  automaton : Automaton I S
  reward : Rat
  currentState : S

namespace TemporalGoal

variable {I S : Type}

/-- Source lines 60–63, cardinality of `TemporalGoal.observation_space`:
`Discrete(len(self._automaton.states))`. -/
def observation_space_n (tg : TemporalGoal I S) : Nat :=
  tg.automaton.stateCount

/-- Source lines 75–82, `TemporalGoal.reset`: forwards to the initial-state
computation of the simulator from the initial interpretation, storing and
returning the state. -/
def reset (tg : TemporalGoal I S) (initial_obs : I) : S × TemporalGoal I S :=
  let s := tg.automaton.initialState initial_obs
  (s, { tg with currentState := s })

/-- Source lines 84–91, `TemporalGoal.step`: forwards to the transition
function of the simulator from `currentState`, storing the new state and returning
`(state, reward)`. -/
def step (tg : TemporalGoal I S) (symbol : I) : (S × Rat) × TemporalGoal I S :=
  let sr := tg.automaton.transition tg.currentState symbol
  (sr, { tg with currentState := sr.1 })

/-- Source lines 93–95, `TemporalGoal.current_dfa_state`: read-only. -/
def current_dfa_state (tg : TemporalGoal I S) : S :=
  tg.currentState

end TemporalGoal

/-- Source lines 138–167: the mutable state of the composite wrapper: the inner
environment (with its threaded state), the ordered goal list, the fluent
extractor (taking the observation and the action, `none` at reset), and the
single shared step controller. -/
structure TemporalGoalWrapper (E O A I S Info : Type) where
  env : Env E O A Info
  envState : E
  temp_goals : List (TemporalGoal I S)
  fluent_extractor : O → Option A → I
  step_controller : StepController I

variable {E O A I S Info : Type}

namespace TemporalGoalWrapper

/-- The default controller built in `__init__` when none is supplied
(source line 165): `StepController(step_func=lambda fluents: True, allow_first=True)`. -/
def defaultController : StepController I :=
  { started := false, step_func := fun _ => true, allow_first := true }

/-- Source lines 141–167, the constructor of `TemporalGoalWrapper`: stores the wrapped
environment, goal list, fluent extractor and the supplied controller (the
default one when `none`).  It performs no validation and cannot fail.
(The `observation_space` assignment on line 167 only builds gym space objects,
an external collaborator; it raises no error of this layer.) -/
def init (env : Env E O A Info) (envState : E) (temp_goals : List (TemporalGoal I S))
    (fluent_extractor : O → Option A → I)
    (step_controller : Option (StepController I)) : TemporalGoalWrapper E O A I S Info :=
  { env := env, envState := envState, temp_goals := temp_goals,
    fluent_extractor := fluent_extractor,
    step_controller := step_controller.getD defaultController }

end TemporalGoalWrapper

/-- One element of the list comprehension in `step` (source lines 180–185):
`tg.step(fluents) if self.step_controller.check(fluents) else
(tg.current_dfa_state(), 0.0)` — the outcome pair together with the
(possibly unchanged) tracker. -/
def stepOne (fluents : I) (c : StepController I) (tg : TemporalGoal I S) :
    (S × Rat) × TemporalGoal I S :=
  if (c.check fluents).1 then tg.step fluents
  else ((tg.current_dfa_state, (0 : Rat)), tg)

/-- The whole list comprehension of `step` (source lines 180–185): iterates
over the goals in configured order, threading the single shared mutable
controller through the successive `check` calls; returns the list of
`(state, reward)` outcomes, the updated trackers, and the final controller. -/
def stepGoalsAux (fluents : I) :
    List (TemporalGoal I S) → StepController I →
      List (S × Rat) × List (TemporalGoal I S) × StepController I
  | [], c => ([], [], c)
  | tg :: tgs, c =>
    let r := stepOne fluents c tg
    let rest := stepGoalsAux fluents tgs (c.check fluents).2
    (r.1 :: rest.1, r.2 :: rest.2.1, rest.2.2)

/-- The tracker-reset loop of `reset` (source line 196):
`[tg.reset(fluents) for tg in self.temp_goals]`. -/
def resetGoals (fluents : I) :
    List (TemporalGoal I S) → List S × List (TemporalGoal I S)
  | [] => ([], [])
  | tg :: tgs =>
    let r := tg.reset fluents
    let rest := resetGoals fluents tgs
    (r.1 :: rest.1, r.2 :: rest.2)

namespace TemporalGoalWrapper

/-- Source lines 176–190, `TemporalGoalWrapper.step`: advance the inner
environment, extract fluents from `(obs, action)`, run the gated tracker
advancement, then return `((obs, states), reward + sum(goal rewards), done,
info)` with the updated wrapper.  When the goal list is empty the Python
`next_automata_states, temp_goal_rewards = zip(*states_and_rewards)` unpacking
raises a `ValueError`; that case is `none`. -/
def step (w : TemporalGoalWrapper E O A I S Info) (action : A) :
    Option (((O × List S) × Rat × Bool × Info) × TemporalGoalWrapper E O A I S Info) :=
  let r := w.env.step w.envState action
  let obs := r.1.1
  let reward := r.1.2.1
  let dn := r.1.2.2.1
  let info := r.1.2.2.2
  let fluents := w.fluent_extractor obs (some action)
  let sr := stepGoalsAux fluents w.temp_goals w.step_controller
  if sr.1.isEmpty then none
  else
    some (((obs, sr.1.map Prod.fst), reward + (sr.1.map Prod.snd).sum, dn, info),
      { w with envState := r.2, temp_goals := sr.2.1, step_controller := sr.2.2 })

/-- Source lines 192–197, `TemporalGoalWrapper.reset`: reset the inner
environment, extract fluents from `(obs, None)`, reset every tracker with
those fluents, and return `(obs, automata_states)`.  Note that the source
does NOT call `self.step_controller.reset()` here: the controller is left
untouched. -/
def reset (w : TemporalGoalWrapper E O A I S Info) :
    (O × List S) × TemporalGoalWrapper E O A I S Info :=
  let r := w.env.reset w.envState
  let fluents := w.fluent_extractor r.1 none
  let rg := resetGoals fluents w.temp_goals
  ((r.1, rg.1), { w with envState := r.2, temp_goals := rg.2 })

end TemporalGoalWrapper

/-- The controller state reached after `n` successive `check` calls with the
same fluents (during one wrapper `step`, the shared controller is checked once
per goal, all with the fluents of that step). -/
def checkN (fluents : I) : Nat → StepController I → StepController I
  | 0, c => c
  | n + 1, c => checkN fluents n (c.check fluents).2

/-- A run of successive `check` calls on one controller, returning the list of
results and the final controller. -/
def checkRun (c : StepController I) : List I → List Bool × StepController I
  | [] => ([], c)
  | f :: fs =>
    let r := c.check f
    let rest := checkRun r.2 fs
    (r.1 :: rest.1, rest.2)

/-- Per-position gated reward: the reward the tracker at position `k` of the
goal list contributes during one wrapper step with fluents `fluents` — the
transition reward when the shared controller (in the state it has reached
after the `k` preceding `check` calls of this step) passes, and `0`
otherwise; `0` also past the end of the list. -/
def rewardAt (fluents : I) (c : StepController I) (gs : List (TemporalGoal I S))
    (k : Nat) : Rat :=
  ((gs.get? k).map fun g => (stepOne fluents (checkN fluents k c) g).1.2).getD 0

/-- Concrete two-state automaton used by the example configurations: counts
the symbols read, attributing reward `1` to every transition. -/
def autEx : Automaton Bool Nat :=
  { stateCount := 2, initialState := fun _ => 0, transition := fun s _ => (s + 1, 1) }

/-- Concrete automaton that reports zero states. -/
def autZero : Automaton Bool Nat :=
  { stateCount := 0, initialState := fun _ => 0, transition := fun s _ => (s, 0) }

/-- Concrete goal tracker over `autEx`. -/
def gEx : TemporalGoal Bool Nat :=
  { automaton := autEx, reward := 1, currentState := 0 }

/-- Concrete goal tracker whose automaton reports zero states. -/
def gZero : TemporalGoal Bool Nat :=
  { automaton := autZero, reward := 1, currentState := 0 }

/-- Concrete inner environment: reset observation `5`; every step yields
observation `7`, reward `2`, not done. -/
def envEx : Env Unit Nat Nat Unit :=
  { reset := fun e => (5, e), step := fun e _ => ((7, 2, false, ()), e) }

/-- Concrete fluent extractor. -/
def extEx : Nat → Option Nat → Bool := fun _ _ => true

/-- Fresh controller with `allow_first = true` and a gate predicate that is
constantly `false`. -/
def cFalseGate : StepController Bool :=
  { started := false, step_func := fun _ => false, allow_first := true }

/-- Controller already in the `Started` state whose gate is constantly
`false`. -/
def cStartedFalseGate : StepController Bool :=
  { started := true, step_func := fun _ => false, allow_first := true }

/-- Fresh controller with `allow_first = false` whose gate is the identity on
the (boolean) interpretation. -/
def cNoFirst : StepController Bool :=
  { started := false, step_func := fun b => b, allow_first := false }

/-- Concrete wrapper: one goal, default controller. -/
def wEx : TemporalGoalWrapper Unit Nat Nat Bool Nat Unit :=
  TemporalGoalWrapper.init envEx () [gEx] extEx none

/-- Concrete wrapper with an explicit fresh `allow_first` controller whose
gate is constantly `false`. -/
def wC1 : TemporalGoalWrapper Unit Nat Nat Bool Nat Unit :=
  TemporalGoalWrapper.init envEx () [gEx] extEx (some cFalseGate)

section HelperLemmas

/-- Structure eta for a controller that is already not started. -/
lemma StepController.eta_not_started (c : StepController I) (h : c.started = false) :
    { c with started := false } = c := by
  cases c
  simp_all

/-- The `started` flag after one `check` equals the old flag or-ed with the
result of that `check`. -/
lemma StepController.check_started_eq (c : StepController I) (f : I) :
    (c.check f).2.started = (c.started || (c.check f).1) := by
  unfold StepController.check
  split_ifs with h1 h2 <;> simp_all

/-- For a controller that has already started, `check` returns the raw gate
value and leaves the controller unchanged. -/
lemma StepController.check_of_started (c : StepController I) (f : I)
    (h : c.started = true) : c.check f = (c.step_func f, c) := by
  simp [StepController.check, h]

/-- Checking leaves the gate predicate unchanged. -/
lemma StepController.check_step_func (c : StepController I) (f : I) :
    (c.check f).2.step_func = c.step_func := by
  unfold StepController.check
  split_ifs <;> rfl

/-- Checking leaves the `allow_first` flag unchanged. -/
lemma StepController.check_allow_first (c : StepController I) (f : I) :
    (c.check f).2.allow_first = c.allow_first := by
  unfold StepController.check
  split_ifs <;> rfl

/-- Iterated checks leave a started controller unchanged. -/
lemma checkN_of_started (f : I) (n : Nat) (c : StepController I)
    (h : c.started = true) : checkN f n c = c := by
  induction n with
  | zero => rfl
  | succ n ih => rw [checkN, StepController.check_of_started c f h]; exact ih

/-- A fresh `allow_first` controller is started after its first check. -/
lemma check_fresh_allow_first (c : StepController I) (f : I)
    (h1 : c.started = false) (h2 : c.allow_first = true) :
    (c.check f).2 = { c with started := true } := by
  simp [StepController.check, h1, h2]

/-- A run of checks on a started controller returns the raw gate values and
leaves the controller unchanged. -/
lemma checkRun_of_started (c : StepController I) (h : c.started = true) :
    ∀ fs : List I, checkRun c fs = (fs.map c.step_func, c) := by
  intro fs
  induction fs with
  | nil => rfl
  | cons f fs ih => simp [checkRun, StepController.check_of_started c f h, ih]

/-- The outcome list of the gated advancement has one entry per goal. -/
lemma stepGoalsAux_length (f : I) (gs : List (TemporalGoal I S)) :
    ∀ c : StepController I, (stepGoalsAux f gs c).1.length = gs.length := by
  induction gs with
  | nil => intro c; rfl
  | cons g gs ih => intro c; simp [stepGoalsAux, ih]

/-- The outcome of the tracker at position `k` is `stepOne` of that tracker
with the controller state reached after the `k` preceding checks. -/
lemma stepGoalsAux_get (f : I) (gs : List (TemporalGoal I S)) :
    ∀ (k : Nat) (c : StepController I),
      (stepGoalsAux f gs c).1.get? k =
        (gs.get? k).map fun g => (stepOne f (checkN f k c) g).1 := by
  induction gs with
  | nil => intro k c; simp [stepGoalsAux]
  | cons g gs ih =>
    intro k c
    cases k with
    | zero => rfl
    | succ k => simpa [stepGoalsAux, checkN] using ih k (c.check f).2

/-- The updated tracker at position `k` is the tracker component of `stepOne`
with the controller state reached after the `k` preceding checks. -/
lemma stepGoalsAux_goals_get (f : I) (gs : List (TemporalGoal I S)) :
    ∀ (k : Nat) (c : StepController I),
      (stepGoalsAux f gs c).2.1.get? k =
        (gs.get? k).map fun g => (stepOne f (checkN f k c) g).2 := by
  induction gs with
  | nil => intro k c; simp [stepGoalsAux]
  | cons g gs ih =>
    intro k c
    cases k with
    | zero => rfl
    | succ k => simpa [stepGoalsAux, checkN] using ih k (c.check f).2

/-- The final controller of the gated advancement is the `gs.length`-fold
iterated check: the shared controller is checked exactly once per goal. -/
lemma stepGoalsAux_controller (f : I) (gs : List (TemporalGoal I S)) :
    ∀ c : StepController I, (stepGoalsAux f gs c).2.2 = checkN f gs.length c := by
  induction gs with
  | nil => intro c; rfl
  | cons g gs ih => intro c; simpa [stepGoalsAux, checkN] using ih (c.check f).2

/-- The sum of the per-goal rewards of the gated advancement equals the sum of
the position-indexed gated rewards `rewardAt`. -/
lemma stepGoalsAux_rewards_sum (f : I) (gs : List (TemporalGoal I S)) :
    ∀ c : StepController I,
      ((stepGoalsAux f gs c).1.map Prod.snd).sum =
        ((List.range gs.length).map fun k => rewardAt f c gs k).sum := by
  induction gs with
  | nil => intro c; simp [stepGoalsAux]
  | cons g gs ih =>
    intro c
    have htail : ((List.range gs.length).map
          ((fun k => rewardAt f c (g :: gs) k) ∘ Nat.succ))
        = (List.range gs.length).map fun k => rewardAt f (c.check f).2 gs k := rfl
    simp only [stepGoalsAux, List.map_cons, List.sum_cons, List.length_cons,
      List.range_succ_eq_map, List.map_map, htail]
    rw [ih (c.check f).2]
    rfl

end HelperLemmas

/-- C1: the claim states that `TemporalGoalWrapper.reset` resets every step
controller to `NotStarted`, so that after a wrapper `reset()` every
controller has `started = false`.  The source never calls
`step_controller.reset()` inside `TemporalGoalWrapper.reset` (lines 192–197),
so the flag latched during an episode survives into the next one.  This
theorem evaluates the code at the failing input: a fresh wrapper takes one
step (which sets `started`), then `reset()` is called, and the controller
still has `started = true`. -/
theorem controller_not_reset_on_wrapper_reset :
    (wC1.step 0).map (fun p => (p.2.reset).2.step_controller.started) = some true :=
  rfl

/-- C3 counterexample: construction raises no `ConfigurationError` — it
produces a wrapper even for an empty goal list and even for a goal whose
automaton reports zero states, refuting the claim that such configurations
make construction fail. -/
theorem init_accepts_invalid_config_cex :
    (TemporalGoalWrapper.init envEx () ([] : List (TemporalGoal Bool Nat))
        extEx none).temp_goals.length = 0 ∧
      (TemporalGoalWrapper.init envEx () [gZero] extEx none).temp_goals.length = 1 ∧
      gZero.observation_space_n = 0 :=
  ⟨rfl, rfl, rfl⟩

/-- C3 amended: construction performs no validation and can never fail: for
every configuration — including an empty goal list, zero-state automatons and
an arbitrary gate function — it returns a wrapper that stores the supplied
goals and extractor, with the always-true `allow_first` default controller
substituted when none is given. -/
theorem init_total_no_validation (env : Env E O A Info) (e : E)
    (gs : List (TemporalGoal I S)) (ext : O → Option A → I)
    (c : Option (StepController I)) :
    (TemporalGoalWrapper.init env e gs ext c).temp_goals = gs ∧
      (TemporalGoalWrapper.init env e gs ext c).fluent_extractor = ext ∧
      (TemporalGoalWrapper.init env e gs ext c).step_controller =
        c.getD TemporalGoalWrapper.defaultController :=
  ⟨rfl, rfl, rfl⟩

/-- C5: for every controller with `allow_first = true` and every
interpretation, the first `check` after construction or reset (while
`started = false`) returns `true` regardless of the gate predicate, and moves
the controller to the started state. -/
theorem first_check_allow_first (c : StepController I) (f : I)
    (h1 : c.allow_first = true) (h2 : c.started = false) :
    c.check f = (true, { c with started := true }) := by
  simp [StepController.check, h1, h2]

/-- Witness for C5 at a concrete controller whose gate predicate is
constantly `false`. -/
theorem first_check_allow_first_witness :
    (cFalseGate.allow_first = true ∧ cFalseGate.started = false) ∧
      cFalseGate.check true = (true, { cFalseGate with started := true }) :=
  ⟨⟨rfl, rfl⟩, first_check_allow_first cFalseGate true rfl rfl⟩

/-- C9: over any run of `check` calls, the `started` flag after the first `n`
calls equals the initial flag or-ed with whether any of the first `n` results
was `true`: starting from `false` it flips to `true` exactly at the first
call that returns `true`, flips at most once, and `check` never sets it back
to `false`. -/
theorem started_latch (c : StepController I) (fs : List I) (n : Nat) :
    (checkRun c (fs.take n)).2.started =
      (c.started || (((checkRun c fs).1).take n).any id) := by
  induction fs generalizing c n with
  | nil => simp [checkRun]
  | cons f fs ih =>
    cases n with
    | zero => simp [checkRun]
    | succ n =>
      simp only [List.take_succ_cons, checkRun, List.any_cons, id]
      rw [ih (c.check f).2 n, StepController.check_started_eq, Bool.or_assoc]

/-- C6: for a controller with `allow_first = false` freshly constructed or
reset, every `check` in a run returns exactly the raw gate-predicate value on
the interpretation of that call — in particular `false` on every call before
the gate first holds — and the final controller is the original one with
`started` latched to whether the gate held on any call (it stays
`NotStarted` while the gate returns `false` and moves to `Started` at the
first `true`, after which `check` keeps returning the raw value without
state change). -/
theorem latched_activation (c : StepController I) (fs : List I)
    (h1 : c.allow_first = false) (h2 : c.started = false) :
    (checkRun c fs).1 = fs.map c.step_func ∧
      (checkRun c fs).2 = { c with started := (fs.map c.step_func).any id } := by
  induction fs with
  | nil =>
    refine ⟨rfl, ?_⟩
    simpa using (StepController.eta_not_started c h2).symm
  | cons f fs ih =>
    have hc : c.check f = (c.step_func f, { c with started := c.step_func f }) := by
      simp [StepController.check, h1, h2]
    cases hb : c.step_func f with
    | false =>
      have heta : ({ c with started := false } : StepController I) = c :=
        StepController.eta_not_started c h2
      have hrun : checkRun c (f :: fs)
          = (false :: (checkRun c fs).1, (checkRun c fs).2) := by
        simp only [checkRun, hc, hb, heta]
      rw [hrun]
      refine ⟨?_, ?_⟩
      · rw [List.map_cons, hb, ih.1]
      · rw [ih.2, List.map_cons, hb, List.any_cons]
        simp
    | true =>
      have hrun : checkRun c (f :: fs)
          = (true :: fs.map c.step_func, { c with started := true }) := by
        simp only [checkRun, hc, hb,
          checkRun_of_started ({ c with started := true }) rfl fs]
      rw [hrun]
      refine ⟨?_, ?_⟩
      · rw [List.map_cons, hb]
      · rw [List.map_cons, hb, List.any_cons]
        simp

/-- Witness for C6 at a concrete `allow_first = false` controller whose gate
is the identity, over the call sequence `[false, true, false]`. -/
theorem latched_activation_witness :
    (cNoFirst.allow_first = false ∧ cNoFirst.started = false) ∧
      (checkRun cNoFirst [false, true, false]).1 =
          [false, true, false].map cNoFirst.step_func ∧
        (checkRun cNoFirst [false, true, false]).2 =
          { cNoFirst with
              started := ([false, true, false].map cNoFirst.step_func).any id } :=
  ⟨⟨rfl, rfl⟩, latched_activation cNoFirst [false, true, false] rfl rfl⟩

/-- C7: during one wrapper step, a tracker whose controller check returned
`false` (the controller being in the state reached after the preceding checks
of that step) is left unchanged by the step and its outcome is exactly its
current state with reward `0`; only trackers whose check passed are
mutated. -/
theorem unadvanced_tracker_frame (f : I) (gs : List (TemporalGoal I S))
    (c : StepController I) (k : Nat)
    (h : ((checkN f k c).check f).1 = false) :
    (stepGoalsAux f gs c).2.1.get? k = gs.get? k ∧
      (stepGoalsAux f gs c).1.get? k =
        (gs.get? k).map fun g => (g.current_dfa_state, (0 : Rat)) := by
  rw [stepGoalsAux_goals_get f gs k c, stepGoalsAux_get f gs k c]
  constructor
  · cases gs.get? k <;> simp [stepOne, h]
  · cases gs.get? k <;> simp [stepOne, h]

/-- Witness for C7 at a started controller whose gate is constantly `false`,
with one goal. -/
theorem unadvanced_tracker_frame_witness :
    ((checkN true 0 cStartedFalseGate).check true).1 = false ∧
      (stepGoalsAux true [gEx] cStartedFalseGate).2.1.get? 0 = [gEx].get? 0 ∧
        (stepGoalsAux true [gEx] cStartedFalseGate).1.get? 0 =
          ([gEx].get? 0).map fun g => (g.current_dfa_state, (0 : Rat)) :=
  ⟨rfl, unadvanced_tracker_frame true [gEx] cStartedFalseGate 0 rfl⟩

/-- Resetting the trackers a second time with some fluents yields the same
states as resetting the original trackers with those fluents: a tracker reset
only rewrites `currentState`, never the bound automaton. -/
lemma resetGoals_twice (f f2 : I) (gs : List (TemporalGoal I S)) :
    (resetGoals f2 (resetGoals f gs).2).1 = (resetGoals f2 gs).1 := by
  induction gs with
  | nil => rfl
  | cons g gs ih => simp [resetGoals, TemporalGoal.reset, ih]

/-- C10: within one wrapper step the single shared controller is checked once
per configured goal in order (the final controller is the iterated check);
consequently, starting an episode with `allow_first = true`, the first goal
advances unconditionally while every later goal advances exactly when the raw
gate predicate holds on the fluents of that step (the first check has already
latched `started`). -/
theorem shared_controller_first_step (f : I) (c : StepController I)
    (gs : List (TemporalGoal I S)) (k : Nat)
    (h1 : c.started = false) (h2 : c.allow_first = true) :
    (stepGoalsAux f gs c).2.2 = checkN f gs.length c ∧
      (stepGoalsAux f gs c).1.get? 0 = (gs.get? 0).map (fun g => (g.step f).1) ∧
        (stepGoalsAux f gs c).1.get? (k + 1) =
          (gs.get? (k + 1)).map fun g =>
            if c.step_func f then (g.step f).1
            else (g.current_dfa_state, (0 : Rat)) := by
  refine ⟨stepGoalsAux_controller f gs c, ?_, ?_⟩
  · rw [stepGoalsAux_get f gs 0 c]
    have hres : (c.check f).1 = true := by simp [StepController.check, h1, h2]
    cases gs.get? 0 <;> simp [checkN, stepOne, hres]
  · rw [stepGoalsAux_get f gs (k + 1) c]
    have hN : checkN f (k + 1) c = { c with started := true } := by
      rw [checkN, check_fresh_allow_first c f h1 h2]
      exact checkN_of_started f k _ rfl
    have hchk : ({ c with started := true } : StepController I).check f
        = (c.step_func f, { c with started := true }) :=
      StepController.check_of_started _ f rfl
    rw [hN]
    cases gs.get? (k + 1) <;> cases hb : c.step_func f <;>
      simp [stepOne, hchk, hb]

/-- Witness for C10 at a fresh `allow_first` controller with a constantly
false gate and two identical goals: the first goal advances, the second does
not. -/
theorem shared_controller_first_step_witness :
    (cFalseGate.started = false ∧ cFalseGate.allow_first = true) ∧
      (stepGoalsAux true [gEx, gEx] cFalseGate).2.2 =
          checkN true [gEx, gEx].length cFalseGate ∧
        (stepGoalsAux true [gEx, gEx] cFalseGate).1.get? 0 =
            ([gEx, gEx].get? 0).map (fun g => (g.step true).1) ∧
          (stepGoalsAux true [gEx, gEx] cFalseGate).1.get? (0 + 1) =
            ([gEx, gEx].get? (0 + 1)).map fun g =>
              if cFalseGate.step_func true then (g.step true).1
              else (g.current_dfa_state, (0 : Rat)) :=
  ⟨⟨rfl, rfl⟩, shared_controller_first_step true cFalseGate [gEx, gEx] 0 rfl rfl⟩

/-- C2 counterexample: with a fresh `allow_first = true` controller whose gate
is constantly false, the same tracker produces a different per-step outcome
when another tracker precedes it in the configured list (it is frozen with
reward `0`) than when it stands alone (it advances with reward `1`): a
tracker outcome this step is not independent of the presence of the other
trackers. -/
theorem tracker_outcome_depends_on_position_cex :
    (stepGoalsAux true [gEx, gEx] cFalseGate).1.get? 1 ≠
      (stepGoalsAux true [gEx] cFalseGate).1.get? 0 := by
  decide

/-- C2 amended: a tracker per-step outcome is determined by the step fluents,
the tracker itself, and the state the shared controller has reached after the
checks for the goals preceding it — hence it never depends on the other
trackers automatons, states or rewards, but (the controller being shared and
mutable) it may depend on how many trackers precede it in the configured
list. -/
theorem tracker_outcome_position_only (f : I) (gs1 gs2 : List (TemporalGoal I S))
    (g : TemporalGoal I S) (c : StepController I) :
    (stepGoalsAux f (gs1 ++ g :: gs2) c).1.get? gs1.length =
      some (stepOne f (checkN f gs1.length c) g).1 := by
  induction gs1 generalizing c with
  | nil => rfl
  | cons g1 gs1 ih =>
    simpa [stepGoalsAux, checkN, List.cons_append, List.length_cons,
      List.get?_cons_succ] using ih (c.check f).2

/-- C8: when the inner environment, the automatons and the extractor are
deterministic functions (as embedded) and the two inner resets yield the same
initial observation, two consecutive wrapper `reset` calls return identical
initial goal-state vectors. -/
theorem reset_idempotent_states (w : TemporalGoalWrapper E O A I S Info)
    (h : (w.reset).1.1 = ((w.reset).2.reset).1.1) :
    (w.reset).1.2 = ((w.reset).2.reset).1.2 := by
  obtain ⟨env0, e0, gs0, ext0, c0⟩ := w
  have h2 : (env0.reset e0).1 = (env0.reset (env0.reset e0).2).1 := h
  show (resetGoals (ext0 (env0.reset e0).1 none) gs0).1
      = (resetGoals (ext0 (env0.reset (env0.reset e0).2).1 none)
          (resetGoals (ext0 (env0.reset e0).1 none) gs0).2).1
  rw [← h2]
  exact (resetGoals_twice _ _ gs0).symm

/-- Witness for C8 at the concrete wrapper `wEx`, whose inner environment
always yields observation `5` on reset. -/
theorem reset_idempotent_states_witness :
    (wEx.reset).1.1 = ((wEx.reset).2.reset).1.1 ∧
      (wEx.reset).1.2 = ((wEx.reset).2.reset).1.2 :=
  ⟨rfl, reset_idempotent_states wEx rfl⟩

/-- C4: whenever the goal list is nonempty (the empty list makes the Python
tuple unpacking in `step` raise), `step` returns a total reward equal to the
inner reward plus the sum over configured trackers of the transition reward
when the controller check of that tracker passed this step and `0` otherwise,
and the inner `done` flag and `info` are passed through unmodified. -/
theorem step_reward_aggregation (w : TemporalGoalWrapper E O A I S Info) (a : A)
    (h : w.temp_goals ≠ []) :
    (w.step a).map (fun p => p.1.2.1) =
        some ((w.env.step w.envState a).1.2.1 +
          ((List.range w.temp_goals.length).map fun k =>
            rewardAt (w.fluent_extractor (w.env.step w.envState a).1.1 (some a))
              w.step_controller w.temp_goals k).sum) ∧
      (w.step a).map (fun p => p.1.2.2.1) = some (w.env.step w.envState a).1.2.2.1 ∧
        (w.step a).map (fun p => p.1.2.2.2) = some (w.env.step w.envState a).1.2.2.2 := by
  obtain ⟨env0, e0, gs0, ext0, c0⟩ := w
  cases gs0 with
  | nil => exact absurd rfl h
  | cons g gs =>
    refine ⟨?_, rfl, rfl⟩
    show some ((env0.step e0 a).1.2.1 +
        ((stepGoalsAux (ext0 (env0.step e0 a).1.1 (some a)) (g :: gs) c0).1.map
          Prod.snd).sum) = _
    rw [stepGoalsAux_rewards_sum (ext0 (env0.step e0 a).1.1 (some a)) (g :: gs) c0]

/-- Witness for C4 at the concrete one-goal wrapper `wEx` and action `0`. -/
theorem step_reward_aggregation_witness :
    wEx.temp_goals ≠ [] ∧
      ((wEx.step 0).map (fun p => p.1.2.1) =
          some ((wEx.env.step wEx.envState 0).1.2.1 +
            ((List.range wEx.temp_goals.length).map fun k =>
              rewardAt (wEx.fluent_extractor (wEx.env.step wEx.envState 0).1.1 (some 0))
                wEx.step_controller wEx.temp_goals k).sum) ∧
        (wEx.step 0).map (fun p => p.1.2.2.1) =
            some (wEx.env.step wEx.envState 0).1.2.2.1 ∧
          (wEx.step 0).map (fun p => p.1.2.2.2) =
            some (wEx.env.step wEx.envState 0).1.2.2.2) :=
  ⟨List.cons_ne_nil gEx [],
    step_reward_aggregation wEx 0 (List.cons_ne_nil gEx [])⟩
